import Mathlib

/-!
Shallow embedding of `src/postgresql/main.py` (function `lambda_handler`).

The handler reads six environment variables, opens one PostgreSQL
connection, runs `SELECT version();`, calls `fetchone` twice, and returns
a `{statusCode, body}` mapping.  Lines 61-76 of the source (the SQS send
and the final 200 return) come after a `try/except` in which both branches
`return`, so they are unreachable; the embedding therefore ends where the
executed code ends, and an effect trace records every external call that
is attempted (connection attempt, query text, queue send) so that absence
of the queue send is provable rather than assumed.

Nondeterminism of the outside world (does the connection succeed, what
rows does the query produce, would the queue accept a message) is made
explicit as input data (`DB`, `SQS`), so the handler itself is a total
pure function of the invocation inputs and the world's behavior.
-/

/-- One result row as produced by the database driver: a tuple of text
column values (`SELECT version();` yields one text column). -/
abbrev Row := List String

/-- The process environment as far as the handler reads it: the six
variables looked up at lines 8-13; `none` means the variable is unset. -/
structure Env where
  DB_HOST : Option String
  DB_NAME : Option String
  DB_USER : Option String
  DB_PASSWORD : Option String
  DB_PORT : Option String
  SQS_URL : Option String

/-- Behavior of the database for this invocation: the outcome of
`psycopg2.connect` (line 20) and, if reached, the outcome of
`cur.execute("SELECT version();")` (line 31) together with the full list
of rows the cursor will yield to successive `fetchone` calls. -/
structure DB where
  connect : Except String Unit
  query : Except String (List Row)

/-- Behavior of the queue for this invocation: the outcome
`sqs_client.send_message` would have if it were called (line 63). -/
structure SQS where
  send : Except String Unit

/-- An external call attempted by the handler, in program order. -/
inductive Effect where
  | dbConnect : Effect
  | dbQuery : String → Effect
  | sqsSend : String → String → Effect
deriving DecidableEq, Repr

/-- A fault that escapes the handler uncaught: the `KeyError` raised by
`os.environ[...]` when a required variable is missing (lines 8-13). -/
inductive Fault where
  | keyError : String → Fault
deriving DecidableEq, Repr

/-- The response mapping `{'statusCode': ..., 'body': ...}`. -/
structure Response where
  statusCode : Nat
  body : String
deriving DecidableEq, Repr

/-- The value of the local variable `status_message`: `{}` at line 16,
then a `{"status": ..., "message": ...}` mapping on lines 37-40 or 52-55. -/
inductive StatusMsg where
  | empty : StatusMsg
  | mk : String → String → StatusMsg
deriving DecidableEq, Repr

/-- Everything observable about one invocation: how it ended (a returned
response, or an uncaught fault), the external calls it attempted, and the
final value of `status_message`. -/
structure RunResult where
  outcome : Except Fault Response
  effects : List Effect
  statusMessage : StatusMsg

/-- Python `repr` of a driver row (a tuple of strings), as interpolated
by the f-string at line 48; `None` when `fetchone` found no row. -/
def pyReprFetched : Option Row → String
  | none => "None"
  | some [] => "()"
  | some [a] => "(\x27" ++ a ++ "\x27,)"
  | some r => "(" ++ String.intercalate ", " (r.map fun a => "\x27" ++ a ++ "\x27") ++ ")"

/-- `str(e)` for the `TypeError` raised by `None[0]` at line 33 when the
second `fetchone` returns `None`. -/
def noneSubscriptMsg : String := "\x27NoneType\x27 object is not subscriptable"

/-- `str(e)` for the `IndexError` raised at line 33 when the second row
is an empty tuple. -/
def emptyRowMsg : String := "tuple index out of range"

/-- Shallow embedding of `lambda_handler` (src/postgresql/main.py, lines
6-76).  `event` and `context` are the two platform arguments; the body
never consults them, exactly as in the source.  Control flow: the five
required environment lookups can each raise an uncaught `KeyError`;
inside the `try`, a failing connect or query (or the `TypeError` /
`IndexError` from line 33) is caught at line 51 and turned into a 500;
otherwise line 46 returns 200.  Both branches return, so the SQS send at
lines 62-66 is never reached and no `sqsSend` effect is ever emitted. -/
def lambda_handler {α β : Type} (event : α) (context : β)
    (env : Env) (db : DB) (sqs : SQS) : RunResult :=
  -- line 8: db_host = os.environ['DB_HOST']
  match env.DB_HOST with
  | none => ⟨.error (.keyError "DB_HOST"), [], .empty⟩
  | some _ =>
  -- line 9
  match env.DB_NAME with
  | none => ⟨.error (.keyError "DB_NAME"), [], .empty⟩
  | some _ =>
  -- line 10
  match env.DB_USER with
  | none => ⟨.error (.keyError "DB_USER"), [], .empty⟩
  | some _ =>
  -- line 11
  match env.DB_PASSWORD with
  | none => ⟨.error (.keyError "DB_PASSWORD"), [], .empty⟩
  | some _ =>
  -- line 12: os.environ.get('DB_PORT', '5432') never raises
  -- line 13: sqs_url = os.environ['SQS_URL']
  match env.SQS_URL with
  | none => ⟨.error (.keyError "SQS_URL"), [], .empty⟩
  | some _ =>
  -- line 15: boto3.client('sqs'); line 16: status_message = {}
  -- lines 18-26: try / psycopg2.connect(...)
  match db.connect with
  | .error e =>
      -- caught at line 51: status_message = error, return 500 (lines 52-59)
      ⟨.ok ⟨500, "Error: " ++ e⟩, [.dbConnect], .mk "error" e⟩
  | .ok _ =>
  -- line 31: cur.execute("SELECT version();")
  match db.query with
  | .error e =>
      ⟨.ok ⟨500, "Error: " ++ e⟩, [.dbConnect, .dbQuery "SELECT version();"], .mk "error" e⟩
  | .ok rows =>
    -- line 32: record = cur.fetchone()  (first row, or None)
    let record := rows[0]?
    -- line 33: version = cur.fetchone()[0]  (a SECOND fetchone)
    match rows[1]? with
    | none =>
        -- `None[0]` raises TypeError, caught at line 51
        ⟨.ok ⟨500, "Error: " ++ noneSubscriptMsg⟩,
          [.dbConnect, .dbQuery "SELECT version();"], .mk "error" noneSubscriptMsg⟩
    | some row2 =>
    match row2[0]? with
    | none =>
        -- empty tuple: IndexError, caught at line 51
        ⟨.ok ⟨500, "Error: " ++ emptyRowMsg⟩,
          [.dbConnect, .dbQuery "SELECT version();"], .mk "error" emptyRowMsg⟩
    | some version =>
        -- lines 37-49: success message, close cursor/connection, return 200
        ⟨.ok ⟨200, "Connected successfully: " ++ pyReprFetched record⟩,
          [.dbConnect, .dbQuery "SELECT version();"],
          .mk "success" ("Connected to PostgreSQL successfully: " ++ version)⟩

/-- The texts of database queries attempted during a run, in order. -/
def queryTexts (effs : List Effect) : List String :=
  effs.filterMap fun e =>
    match e with
    | .dbQuery s => some s
    | _ => none

/-- Whether an effect is a queue send. -/
def isSqsSend : Effect → Bool
  | .sqsSend _ _ => true
  | _ => false

/-- The queue sends attempted during a run. -/
def sqsSends (effs : List Effect) : List Effect :=
  effs.filter isSqsSend

/-- A complete environment: every variable the handler reads is set. -/
def envFull : Env :=
  ⟨some "db.internal", some "appdb", some "alice", some "hunter2",
   some "5432", some "https://sqs.example/queue"⟩

/-- A database whose connection and query succeed and whose fixed query
yields exactly one row, as `SELECT version();` does on a real server. -/
def dbOneRow : DB :=
  ⟨.ok (), .ok [["PostgreSQL 15.3 on x86_64-pc-linux-gnu"]]⟩

/-- A database whose connection attempt fails. -/
def dbConnFail : DB :=
  ⟨.error "connection refused", .ok []⟩

/-- A (physically impossible for `SELECT version();`) database that
yields two rows; the only way line 46 can actually be reached. -/
def dbTwoRows : DB :=
  ⟨.ok (), .ok [["row one"], ["PostgreSQL 15.3"]]⟩

/-- A queue that would accept the message, were the send ever attempted. -/
def sqsOk : SQS := ⟨.ok ()⟩

/-- C1: the spec's success path — valid connectivity, exactly one row
read, statusCode 200 with a version string — is broken by the code: with
a working database whose fixed query yields its one row, the duplicated
`fetchone` at line 33 returns `None`, `None[0]` raises, and the handler
returns 500 with the `TypeError` text instead of 200 with the version. -/
theorem C1_success_path_broken :
    (lambda_handler () () envFull dbOneRow sqsOk).outcome =
      .ok ⟨500, "Error: " ++ noneSubscriptMsg⟩ ∧
    (lambda_handler () () envFull dbOneRow sqsOk).statusMessage =
      .mk "error" noneSubscriptMsg := by
  exact ⟨rfl, rfl⟩

/-- C2: whenever the connection succeeds and the query yields exactly one
row, the second `fetchone` (line 33) finds no row, its subscript raises,
the `except` branch runs, and the handler returns 500 with the
`TypeError` text — so the 200 return at line 46 is unreachable under this
precondition. -/
theorem C2_single_row_forces_500 {α β : Type} (event : α) (context : β)
    (env : Env) (db : DB) (sqs : SQS) (row : Row)
    (vH vN vU vP vS : String)
    (hH : env.DB_HOST = some vH) (hN : env.DB_NAME = some vN)
    (hU : env.DB_USER = some vU) (hP : env.DB_PASSWORD = some vP)
    (hS : env.SQS_URL = some vS)
    (hc : db.connect = .ok ()) (hq : db.query = .ok [row]) :
    (lambda_handler event context env db sqs).outcome =
      .ok ⟨500, "Error: " ++ noneSubscriptMsg⟩ := by
  unfold lambda_handler
  rw [hH, hN, hU, hP, hS, hc, hq]
  rfl

/-- C2 witness: the theorem applied at a concrete one-row database. -/
theorem C2_single_row_forces_500_witness :
    (lambda_handler () () envFull dbOneRow sqsOk).outcome =
      .ok ⟨500, "Error: " ++ noneSubscriptMsg⟩ :=
  C2_single_row_forces_500 () () envFull dbOneRow sqsOk
    ["PostgreSQL 15.3 on x86_64-pc-linux-gnu"]
    "db.internal" "appdb" "alice" "hunter2" "https://sqs.example/queue"
    rfl rfl rfl rfl rfl rfl rfl

/-- C3: the claim that the handler publishes the status message after the
try/except is false — both branches return inside the try/except, so the
send at line 63 is dead code.  Concretely: when the connect fails the
handler returns the 500 without attempting any queue send, and even on
the one path that reaches the 200 return at line 46 no send is attempted
and no publish failure can override the result. -/
theorem C3_publish_never_attempted :
    ((lambda_handler () () envFull dbConnFail sqsOk).outcome =
        .ok ⟨500, "Error: connection refused"⟩ ∧
      sqsSends (lambda_handler () () envFull dbConnFail sqsOk).effects = []) ∧
    ((lambda_handler () () envFull dbTwoRows sqsOk).outcome =
        .ok ⟨200, "Connected successfully: (\x27row one\x27,)"⟩ ∧
      sqsSends (lambda_handler () () envFull dbTwoRows sqsOk).effects = []) := by
  exact ⟨⟨rfl, rfl⟩, ⟨rfl, rfl⟩⟩

/-- C4: on every execution path the handler returns from inside the
try/except block before the SQS send at line 63, so no message is ever
sent to the queue: the effect trace of any run contains no send. -/
theorem C4_no_sqs_send_ever {α β : Type} (event : α) (context : β)
    (env : Env) (db : DB) (sqs : SQS) :
    sqsSends (lambda_handler event context env db sqs).effects = [] := by
  unfold lambda_handler
  repeat' split
  all_goals rfl

/-- C5: the claim's precondition (database probe and queue publish both
succeed) cannot make the body a JSON success object: with a working
database yielding the one version row and a queue that would accept the
message, the handler returns 500 with the `TypeError` text, its final
status message is the error one, and it never even attempts the publish. -/
theorem C5_json_success_body_unreachable :
    (lambda_handler () () envFull dbOneRow sqsOk).outcome =
      .ok ⟨500, "Error: " ++ noneSubscriptMsg⟩ ∧
    (lambda_handler () () envFull dbOneRow sqsOk).statusMessage ≠
      .mk "success" "Connected to PostgreSQL successfully: PostgreSQL 15.3 on x86_64-pc-linux-gnu" ∧
    sqsSends (lambda_handler () () envFull dbOneRow sqsOk).effects = [] := by
  refine ⟨rfl, ?_, rfl⟩
  decide

/-- C6: whenever the connect step or the query step fails, the exception
is caught at line 51, `status_message` becomes the error mapping with the
failure description, and the handler returns 500 with a body describing
the error. -/
theorem C6_db_failure_caught_500 {α β : Type} (event : α) (context : β)
    (env : Env) (db : DB) (sqs : SQS) (e : String)
    (vH vN vU vP vS : String)
    (hH : env.DB_HOST = some vH) (hN : env.DB_NAME = some vN)
    (hU : env.DB_USER = some vU) (hP : env.DB_PASSWORD = some vP)
    (hS : env.SQS_URL = some vS)
    (hfail : db.connect = .error e ∨ (db.connect = .ok () ∧ db.query = .error e)) :
    (lambda_handler event context env db sqs).outcome = .ok ⟨500, "Error: " ++ e⟩ ∧
    (lambda_handler event context env db sqs).statusMessage = .mk "error" e := by
  unfold lambda_handler
  rw [hH, hN, hU, hP, hS]
  rcases hfail with hc | ⟨hc, hq⟩
  · rw [hc]; exact ⟨rfl, rfl⟩
  · rw [hc, hq]; exact ⟨rfl, rfl⟩

/-- C6 witness: the theorem applied at a concrete failing connection. -/
theorem C6_db_failure_caught_500_witness :
    (lambda_handler () () envFull dbConnFail sqsOk).outcome =
      .ok ⟨500, "Error: connection refused"⟩ ∧
    (lambda_handler () () envFull dbConnFail sqsOk).statusMessage =
      .mk "error" "connection refused" :=
  C6_db_failure_caught_500 () () envFull dbConnFail sqsOk "connection refused"
    "db.internal" "appdb" "alice" "hunter2" "https://sqs.example/queue"
    rfl rfl rfl rfl rfl (Or.inl rfl)

/-- C7: if any required environment variable is unset, the invocation
ends in an uncaught `KeyError` and its effect trace is empty: no database
connection is attempted and no queue send is attempted. -/
theorem C7_missing_env_faults_before_network {α β : Type} (event : α) (context : β)
    (env : Env) (db : DB) (sqs : SQS)
    (h : env.DB_HOST = none ∨ env.DB_NAME = none ∨ env.DB_USER = none ∨
         env.DB_PASSWORD = none ∨ env.SQS_URL = none) :
    (∃ name, (lambda_handler event context env db sqs).outcome = .error (.keyError name)) ∧
    (lambda_handler event context env db sqs).effects = [] := by
  unfold lambda_handler
  rcases hH : env.DB_HOST with _ | vH
  · exact ⟨⟨"DB_HOST", rfl⟩, rfl⟩
  rcases hN : env.DB_NAME with _ | vN
  · exact ⟨⟨"DB_NAME", rfl⟩, rfl⟩
  rcases hU : env.DB_USER with _ | vU
  · exact ⟨⟨"DB_USER", rfl⟩, rfl⟩
  rcases hP : env.DB_PASSWORD with _ | vP
  · exact ⟨⟨"DB_PASSWORD", rfl⟩, rfl⟩
  rcases hS : env.SQS_URL with _ | vS
  · exact ⟨⟨"SQS_URL", rfl⟩, rfl⟩
  simp [hH, hN, hU, hP, hS] at h

/-- C7 witness: the theorem applied at an environment missing DB_HOST. -/
theorem C7_missing_env_faults_before_network_witness :
    (∃ name,
      (lambda_handler () () ⟨none, none, none, none, none, none⟩ dbOneRow sqsOk).outcome =
        .error (.keyError name)) ∧
    (lambda_handler () () ⟨none, none, none, none, none, none⟩ dbOneRow sqsOk).effects = [] :=
  C7_missing_env_faults_before_network () () ⟨none, none, none, none, none, none⟩
    dbOneRow sqsOk (Or.inl rfl)

/-- C8: any invocation that returns normally returns a response whose
statusCode is 200 or 500 (its body is a string by construction). -/
theorem C8_status_code_200_or_500 {α β : Type} (event : α) (context : β)
    (env : Env) (db : DB) (sqs : SQS) (resp : Response)
    (h : (lambda_handler event context env db sqs).outcome = .ok resp) :
    resp.statusCode = 200 ∨ resp.statusCode = 500 := by
  unfold lambda_handler at h
  repeat' split at h
  all_goals simp only [Except.ok.injEq, reduceCtorEq] at h
  all_goals rw [← h]
  all_goals simp

/-- C8 witness: the theorem applied at a concrete run. -/
theorem C8_status_code_200_or_500_witness :
    (500 : Nat) = 200 ∨ (500 : Nat) = 500 :=
  C8_status_code_200_or_500 () () envFull dbOneRow sqsOk
    ⟨500, "Error: " ++ noneSubscriptMsg⟩ rfl

/-- C9: on every path at most one query is issued and it is exactly
`SELECT version();`; the trace holds no other database statement, so in
particular no write is ever issued. -/
theorem C9_single_fixed_readonly_query {α β : Type} (event : α) (context : β)
    (env : Env) (db : DB) (sqs : SQS) :
    queryTexts (lambda_handler event context env db sqs).effects = [] ∨
    queryTexts (lambda_handler event context env db sqs).effects = ["SELECT version();"] := by
  unfold lambda_handler
  repeat' split
  all_goals first
    | exact Or.inl rfl
    | exact Or.inr rfl

/-- C10: the handler never consults the event or context arguments: two
invocations differing only in those (of any types) produce identical
outcomes, identical effect traces, and identical status messages. -/
theorem C10_event_context_unused {α β γ δ : Type}
    (event1 : α) (context1 : β) (event2 : γ) (context2 : δ)
    (env : Env) (db : DB) (sqs : SQS) :
    lambda_handler event1 context1 env db sqs =
      lambda_handler event2 context2 env db sqs := rfl
